import Mathlib

/-!
Verification development for the anthropometric measurement and
growth-assessment pipeline of the child growth monitor ML service.

The Python sources are shallowly embedded over exact rational arithmetic:
every IEEE float of the source is modelled as a rational number, so decimal
literals such as 0.4 or 34.13 denote the exact rationals the source text
writes.  Library numeric routines whose exact value never influences the
control flow under scrutiny (the Euclidean vector norm and the constant pi
used by numpy) are abstracted as explicit parameters of type NumPrims, and
all theorems quantify over them.  Python dictionaries of measurement names
are embedded as association lists in insertion order; keys written by the
source are pairwise distinct, so update coincides with append.
-/

/-! ## Nutritional classification (ml-service/main.py and utils/who_standards.py) -/

/-- Embeds categorize_z_score from main.py (assess_nutritional_status):
WHO z-score cutoffs for a single indicator. -/
def categorize_z_score (z_score : ℚ) : String :=
  if z_score ≥ -1 then "normal"
  else if z_score ≥ -2 then "mild"
  else if z_score ≥ -3 then "moderate"
  else "severe"

/-- Embeds WHOStandards.classify_nutritional_status from who_standards.py.
The measurement_type argument is received but never inspected by the source. -/
def classify_nutritional_status (z_score : ℚ) (measurement_type : String) : String :=
  if z_score ≥ -1 then "normal"
  else if z_score ≥ -2 then "mild"
  else if z_score ≥ -3 then "moderate"
  else "severe"

/-- Written from the spec sentence for the per-indicator classification:
z ≥ −1 normal; −2 ≤ z < −1 mild; −3 ≤ z < −2 moderate; z < −3 severe. -/
def spec_classification (z : ℚ) : String :=
  if z ≥ -1 then "normal"
  else if -2 ≤ z ∧ z < -1 then "mild"
  else if -3 ≤ z ∧ z < -2 then "moderate"
  else "severe"

/-- Embeds the overall-risk computation of assess_nutritional_status
(main.py lines 422-440) as a function of the three indicator statuses. -/
def assess_overall_risk (stunting wasting underweight : String) : String :=
  let statuses := [stunting, wasting, underweight]
  if 0 < statuses.count "severe" then "critical"
  else if 1 < statuses.count "moderate" then "high"
  else if 0 < statuses.count "moderate" ∨ 1 < statuses.count "mild" then "medium"
  else "low"

/-- Written from the spec sentence for overall risk: any severe → critical;
otherwise more than one moderate → high; otherwise at least one moderate or
more than one mild → medium; otherwise low. -/
def spec_overall_risk (stunting wasting underweight : String) : String :=
  if stunting = "severe" ∨ wasting = "severe" ∨ underweight = "severe" then "critical"
  else if 1 < [stunting, wasting, underweight].count "moderate" then "high"
  else if 0 < [stunting, wasting, underweight].count "moderate" ∨
          1 < [stunting, wasting, underweight].count "mild" then "medium"
  else "low"

/-! ## Z-score to percentile (who_standards.py, _z_score_to_percentile) -/

/-- Embeds WHOStandards._z_score_to_percentile: a clamped linear
approximation with hard saturation at plus and minus three standard
deviations. -/
def z_score_to_percentile (z_score : ℚ) : ℚ :=
  if z_score ≤ -3 then 0.1
  else if z_score ≥ 3 then 99.9
  else max 0.1 (min 99.9 (50 + z_score * 34.13))

/-! ## Growth velocity (who_standards.py, get_growth_velocity) -/

/-- Result dictionary of get_growth_velocity.  The error paths of the source
populate only the velocity and status keys; the remaining keys are therefore
optional. -/
structure VelocityResult where
  velocity : ℚ
  status : String
  velocity_per_day : Option ℚ
  total_change : Option ℚ
  unit : Option String
  days_interval : Option ℤ
  deriving DecidableEq, Repr

/-- Embeds WHOStandards.get_growth_velocity.  The day interval is an
integer; a non-positive interval short-circuits before any division. -/
def get_growth_velocity (current_measurement previous_measurement : ℚ)
    (days_between : ℤ) (measurement_type : String) : VelocityResult :=
  if days_between ≤ 0 then
    { velocity := 0, status := "invalid_interval", velocity_per_day := none,
      total_change := none, unit := none, days_interval := none }
  else
    let change := current_measurement - previous_measurement
    if measurement_type = "height" then
      let velocity_per_month := (change / (days_between : ℚ)) * 30.44
      let status :=
        if velocity_per_month ≥ 0.8 then "normal"
        else if velocity_per_month ≥ 0.4 then "slow"
        else "very_slow"
      { velocity := velocity_per_month, status := status,
        velocity_per_day := some (change / (days_between : ℚ)),
        total_change := some change, unit := some "cm/month",
        days_interval := some days_between }
    else if measurement_type = "weight" then
      let velocity_per_month := (change / (days_between : ℚ)) * 30.44
      let status :=
        if velocity_per_month ≥ 0.2 then "normal"
        else if velocity_per_month ≥ 0.1 then "slow"
        else "very_slow"
      { velocity := velocity_per_month, status := status,
        velocity_per_day := some (change / (days_between : ℚ)),
        total_change := some change, unit := some "kg/month",
        days_interval := some days_between }
    else
      { velocity := 0, status := "unknown_type", velocity_per_day := none,
        total_change := none, unit := none, days_interval := none }

/-! ## Scale calibration (models/pose_estimator.py and utils/measurement_calculator.py) -/

/-- Named landmark as consumed by RealPoseEstimator._calculate_scale_factor;
only the name and the x coordinate are read by that function. -/
structure Landmark where
  name : String
  x : ℚ
  deriving DecidableEq, Repr

/-- Embeds RealPoseEstimator._calculate_scale_factor.  A supplied non-zero
reference size (Python truthiness) returns 1.0 immediately; a missing nose
or left-ear landmark (StopIteration in the source) or a zero proxy width
falls back to the default factor 0.4. -/
def calculate_scale_factor (landmarks : List Landmark)
    (reference_size_cm : Option ℚ) : ℚ :=
  if reference_size_cm.getD 0 ≠ 0 then 1
  else
    match landmarks.find? (fun lm => lm.name == "nose"),
          landmarks.find? (fun lm => lm.name == "left_ear") with
    | some nose, some ear =>
        let head_width_pixels := |ear.x - nose.x| * 2
        if head_width_pixels > 0 then 15.0 / head_width_pixels else 0.4
    | _, _ => 0.4

/-- Embeds MeasurementCalculator.calibrate_scale with the mutable instance
field pixel_to_cm (source name pixel_to_cm_ratio, initial documented value
0.1) passed explicitly; the update path is guarded by measured_pixels > 0
and the fall-through returns the state unchanged. -/
def calibrate_scale (pixel_to_cm known_measurement measured_pixels : ℚ) : ℚ :=
  if measured_pixels > 0 then
    0.7 * pixel_to_cm + 0.3 * (known_measurement / measured_pixels)
  else pixel_to_cm

/-! ## Multi-view fusion (main.py, combine_multi_scan_results) -/

/-- One named measurement of a per-view PredictionResult: value plus
confidence. -/
structure Meas where
  value : ℚ
  confidence : ℚ
  deriving DecidableEq, Repr

/-- The four anthropometric measurements of a PredictionResult that
combine_multi_scan_results fuses. -/
structure ScanResult where
  height : Meas
  weight : Meas
  arm_circumference : Meas
  head_circumference : Meas
  deriving DecidableEq, Repr

/-- Embeds scan_weights.get(scan_type, 0.1) over the fixed dictionary
front 0.4, back 0.3, side_left 0.15, side_right 0.15. -/
def scanWeight (scan_type : String) : ℚ :=
  if scan_type = "front" then 0.4
  else if scan_type = "back" then 0.3
  else if scan_type = "side_left" then 0.15
  else if scan_type = "side_right" then 0.15
  else 0.1

/-- Embeds np.average(values, weights): the weight-scaled sum divided by the
total weight. -/
def weighted_average (pairs : List (ℚ × ℚ)) : ℚ :=
  (pairs.map (fun q => q.1 * q.2)).sum / (pairs.map (fun q => q.2)).sum

/-- Fusion of one measurement field across the present views: weighted
average of values and of confidences, then the multi-scan confidence boost
min(confidence * 1.1, 1.0). -/
def fuse_measurement (scan_results : List (String × ScanResult))
    (get : ScanResult → Meas) : Meas :=
  { value := weighted_average
      (scan_results.map (fun p => ((get p.2).value, scanWeight p.1))),
    confidence := min (weighted_average
      (scan_results.map (fun p => ((get p.2).confidence, scanWeight p.1))) * 1.1) 1 }

/-- Embeds the measurement-fusion core of combine_multi_scan_results
(main.py lines 322-358): the combined value and confidence of each of the
four measurement types.  The remainder of the source function recomputes
WHO metrics from exactly these fused values. -/
def combine_multi_scan_results
    (scan_results : List (String × ScanResult)) : ScanResult :=
  { height := fuse_measurement scan_results (fun r => r.height),
    weight := fuse_measurement scan_results (fun r => r.weight),
    arm_circumference := fuse_measurement scan_results (fun r => r.arm_circumference),
    head_circumference := fuse_measurement scan_results (fun r => r.head_circumference) }

/-! ## Measurement calculation from pose sequences (utils/measurement_calculator.py) -/

/-- Numeric library primitives abstracted from numpy: norm2 models
np.linalg.norm applied to a 2-D difference vector (given its two
components), and pi models np.pi.  Every theorem below quantifies over
these, because the measurement values they produce never steer the control
flow under verification. -/
structure NumPrims where
  norm2 : ℚ → ℚ → ℚ
  pi : ℚ

/-- One pose keypoint row [x, y, z, visibility] as produced by the pose
estimator. -/
structure Keypoint where
  x : ℚ
  y : ℚ
  z : ℚ
  v : ℚ
  deriving DecidableEq, Repr

/-- One entry of the pose_results list consumed by
MeasurementCalculator.calculate_measurements, with the dictionary reads
p.get('pose_present', False), p.get('quality_score', 0) and
p.get('keypoints', []) embedded as fields. -/
structure Pose where
  pose_present : Bool
  quality_score : ℚ
  keypoints : List Keypoint
  deriving DecidableEq, Repr

/-- Keypoint access keypoints[i]; all source accesses are guarded by
len(keypoints) > 28, so the default row is never read on source paths. -/
def kp (p : Pose) (i : ℕ) : Keypoint :=
  p.keypoints.getD i { x := 0, y := 0, z := 0, v := 0 }

/-- Embeds sorted(pose_results, key=quality_score, reverse=True)[:n]:
a stable descending sort by quality score followed by truncation. -/
def bestPoses (pose_results : List Pose) (n : ℕ) : List Pose :=
  (pose_results.mergeSort (fun a b => decide (b.quality_score ≤ a.quality_score))).take n

/-- The more visible of the two shoulder keypoints (indices 11 and 12), as
selected in _calculate_lateral_measurements. -/
def visibleShoulder (p : Pose) : Keypoint :=
  if (kp p 11).v > (kp p 12).v then kp p 11 else kp p 12

/-- The more visible of the two ear keypoints (indices 7 and 8), as
selected in _calculate_lateral_measurements. -/
def visibleEar (p : Pose) : Keypoint :=
  if (kp p 7).v > (kp p 8).v then kp p 7 else kp p 8

/-- Body of the frontal-measurement loop of
_calculate_frontal_measurements for the single pose it settles on: the
shoulder-width, hip-width and head-to-ground entries, each guarded by
positivity of the coordinates the source tests. -/
def frontalFromPose (fl : NumPrims) (pixel_to_cm : ℚ) (p : Pose) :
    List (String × ℚ) :=
  if 28 < p.keypoints.length then
    (if (kp p 11).x > 0 ∧ (kp p 12).x > 0 then
      [("shoulder_width",
        fl.norm2 ((kp p 11).x - (kp p 12).x) ((kp p 11).y - (kp p 12).y) * pixel_to_cm)]
     else []) ++
    (if (kp p 23).x > 0 ∧ (kp p 24).x > 0 then
      [("hip_width",
        fl.norm2 ((kp p 23).x - (kp p 24).x) ((kp p 23).y - (kp p 24).y) * pixel_to_cm)]
     else []) ++
    (if (kp p 0).y > 0 ∧ ((kp p 27).y > 0 ∨ (kp p 28).y > 0) then
      [("head_to_ground_distance",
        |(if (kp p 27).y > 0 ∧ (kp p 28).y > 0 then ((kp p 27).y + (kp p 28).y) / 2
          else if (kp p 27).y > 0 then (kp p 27).y else (kp p 28).y) - (kp p 0).y|
          * pixel_to_cm)]
     else [])
  else []

/-- Embeds MeasurementCalculator._calculate_frontal_measurements: among the
five best poses, the first with a non-empty keypoint list is measured and
the loop breaks; poses with empty keypoints are skipped. -/
def calculate_frontal_measurements (fl : NumPrims) (pixel_to_cm : ℚ)
    (pose_results : List Pose) : List (String × ℚ) :=
  match (bestPoses pose_results 5).find? (fun p => !p.keypoints.isEmpty) with
  | some p => frontalFromPose fl pixel_to_cm p
  | none => []

/-- Body of the lateral-measurement loop of
_calculate_lateral_measurements for the single pose it settles on: body
depth from the more visible shoulder and the head-circumference proxy from
nose and the more visible ear, both guarded by visibility above 0.5. -/
def lateralFromPose (fl : NumPrims) (pixel_to_cm : ℚ) (p : Pose) :
    List (String × ℚ) :=
  if 28 < p.keypoints.length then
    (if (visibleShoulder p).v > 0.5 then
      [("body_depth", |(visibleShoulder p).z| * 100)]
     else []) ++
    (if (kp p 0).v > 0.5 ∧ (visibleEar p).v > 0.5 then
      [("head_circumference_ratio",
        |(kp p 0).x - (visibleEar p).x| * pixel_to_cm * fl.pi)]
     else [])
  else []

/-- Embeds MeasurementCalculator._calculate_lateral_measurements, with the
same best-pose selection and break as the frontal variant. -/
def calculate_lateral_measurements (fl : NumPrims) (pixel_to_cm : ℚ)
    (pose_results : List Pose) : List (String × ℚ) :=
  match (bestPoses pose_results 5).find? (fun p => !p.keypoints.isEmpty) with
  | some p => lateralFromPose fl pixel_to_cm p
  | none => []

/-- Embeds the good-pose selection of _calculate_common_measurements:
poses with quality above 0.6, or the first three poses when none qualify. -/
def goodPoses (pose_results : List Pose) : List Pose :=
  let good := pose_results.filter (fun p => decide (p.quality_score > 0.6))
  if good.isEmpty then pose_results.take 3 else good

/-- Per-pose left-arm length (shoulder 11, elbow 13, wrist 15) of
_calculate_common_measurements; none when a guard fails. -/
def armLengthOf (fl : NumPrims) (pixel_to_cm : ℚ) (p : Pose) : Option ℚ :=
  if 28 < p.keypoints.length then
    if (kp p 11).x > 0 ∧ (kp p 13).x > 0 ∧ (kp p 15).x > 0 then
      some ((fl.norm2 ((kp p 11).x - (kp p 13).x) ((kp p 11).y - (kp p 13).y) +
             fl.norm2 ((kp p 13).x - (kp p 15).x) ((kp p 13).y - (kp p 15).y))
            * pixel_to_cm)
    else none
  else none

/-- Per-pose left-leg length (hip 23, knee 25, ankle 27) of
_calculate_common_measurements; none when a guard fails. -/
def legLengthOf (fl : NumPrims) (pixel_to_cm : ℚ) (p : Pose) : Option ℚ :=
  if 28 < p.keypoints.length then
    if (kp p 23).x > 0 ∧ (kp p 25).x > 0 ∧ (kp p 27).x > 0 then
      some ((fl.norm2 ((kp p 23).x - (kp p 25).x) ((kp p 23).y - (kp p 25).y) +
             fl.norm2 ((kp p 25).x - (kp p 27).x) ((kp p 25).y - (kp p 27).y))
            * pixel_to_cm)
    else none
  else none

/-- Per-pose torso length (shoulder 11 to hip 23) of
_calculate_common_measurements; none when a guard fails. -/
def torsoLengthOf (fl : NumPrims) (pixel_to_cm : ℚ) (p : Pose) : Option ℚ :=
  if 28 < p.keypoints.length then
    if (kp p 11).x > 0 ∧ (kp p 23).x > 0 then
      some (fl.norm2 ((kp p 11).x - (kp p 23).x) ((kp p 11).y - (kp p 23).y)
            * pixel_to_cm)
    else none
  else none

/-- Embeds np.median on a non-empty list: sort ascending, take the middle
element for odd length, the mean of the two middle elements for even
length. -/
def medianQ (values : List ℚ) : ℚ :=
  let s := values.mergeSort (fun a b => decide (a ≤ b))
  if values.length % 2 = 1 then s.getD (values.length / 2) 0
  else (s.getD (values.length / 2 - 1) 0 + s.getD (values.length / 2) 0) / 2

/-- Embeds MeasurementCalculator._calculate_common_measurements: medians of
per-pose arm, leg and torso lengths over the good poses, each key emitted
only when at least one pose produced the measurement. -/
def calculate_common_measurements (fl : NumPrims) (pixel_to_cm : ℚ)
    (pose_results : List Pose) : List (String × ℚ) :=
  let gp := goodPoses pose_results
  let arm_lengths := gp.filterMap (armLengthOf fl pixel_to_cm)
  let leg_lengths := gp.filterMap (legLengthOf fl pixel_to_cm)
  let torso_lengths := gp.filterMap (torsoLengthOf fl pixel_to_cm)
  (if arm_lengths.isEmpty then [] else [("arm_length", medianQ arm_lengths)]) ++
  (if leg_lengths.isEmpty then [] else [("leg_length", medianQ leg_lengths)]) ++
  (if torso_lengths.isEmpty then [] else [("torso_length", medianQ torso_lengths)])

/-- Embeds MeasurementCalculator._apply_age_corrections: age-banded head
and limb scale factors applied to the matching keys. -/
def apply_age_corrections (measurements : List (String × ℚ))
    (age_months : ℤ) : List (String × ℚ) :=
  let head_scale : ℚ := if age_months < 12 then 1.2 else if age_months < 24 then 1.1 else 1.0
  let limb_scale : ℚ := if age_months < 12 then 0.9 else if age_months < 24 then 0.95 else 1.0
  measurements.map (fun e =>
    if e.1 = "head_circumference_ratio" then (e.1, e.2 * head_scale)
    else if e.1 = "arm_length" ∨ e.1 = "leg_length" then (e.1, e.2 * limb_scale)
    else e)

/-- The consistency bonus of _assess_measurement_quality:
min(good_poses / 5.0, 0.2) where good poses have quality above 0.7. -/
def quality_bonus (quality_scores : List ℚ) : ℚ :=
  min (((quality_scores.filter (fun q => decide (q > 0.7))).length : ℚ) / 5) 0.2

/-- The quantity penalty of _assess_measurement_quality:
0.1 * (3 - n) when fewer than 3 poses are available. -/
def quality_penalty (quality_scores : List ℚ) : ℚ :=
  if quality_scores.length < 3 then 0.1 * ((3 : ℚ) - (quality_scores.length : ℚ)) else 0

/-- Embeds MeasurementCalculator._assess_measurement_quality as a function
of the frames' quality scores: average quality plus the consistency bonus
minus the quantity penalty, clamped to [0, 1]; an empty input returns 0. -/
def assess_measurement_quality (quality_scores : List ℚ) : ℚ :=
  if quality_scores.isEmpty then 0
  else max 0 (min (quality_scores.sum / (quality_scores.length : ℚ)
                    + quality_bonus quality_scores
                    - quality_penalty quality_scores) 1)

/-- Embeds MeasurementCalculator.calculate_measurements: empty input or no
pose-present frame yields the empty dictionary; otherwise view-specific
measurements, common measurements, age corrections, and finally the
measurement_quality entry, in the source's dictionary insertion order. -/
def calculate_measurements (fl : NumPrims) (pixel_to_cm : ℚ)
    (pose_results : List Pose) (scan_type : String) (age_months : ℤ) :
    List (String × ℚ) :=
  if pose_results.isEmpty then []
  else
    let valid_poses := pose_results.filter (fun p => p.pose_present)
    if valid_poses.isEmpty then []
    else
      let view_measurements :=
        if scan_type = "front" ∨ scan_type = "back" then
          calculate_frontal_measurements fl pixel_to_cm valid_poses
        else if scan_type = "side_left" ∨ scan_type = "side_right" then
          calculate_lateral_measurements fl pixel_to_cm valid_poses
        else []
      let measurements :=
        view_measurements ++ calculate_common_measurements fl pixel_to_cm valid_poses
      apply_age_corrections measurements age_months ++
        [("measurement_quality",
          assess_measurement_quality (valid_poses.map (fun p => p.quality_score)))]

/-- Written from the amended claim for the quality score: average quality
plus a bonus of 0.2 exactly when at least one frame has quality above 0.7,
minus the quantity penalty, clamped to [0, 1]. -/
def spec_quality_score (quality_scores : List ℚ) : ℚ :=
  if quality_scores.isEmpty then 0
  else max 0 (min (quality_scores.sum / (quality_scores.length : ℚ)
                    + (if 0 < (quality_scores.filter (fun q => decide (q > 0.7))).length
                       then (0.2 : ℚ) else 0)
                    - quality_penalty quality_scores) 1)

/-- Written from the spec sentence for the aggregate quality score under its
literal reading: the bonus is granted only when at least five high-quality
frames are present (the bonus magnitude is left as a parameter). -/
def claimC9_score (bonus : ℚ) (quality_scores : List ℚ) : ℚ :=
  if quality_scores.isEmpty then 0
  else max 0 (min (quality_scores.sum / (quality_scores.length : ℚ)
                    + (if 5 ≤ (quality_scores.filter (fun q => decide (q > 0.7))).length
                       then bonus else 0)
                    - quality_penalty quality_scores) 1)

/-! ## Shared helper lemmas -/

/-- Closed form of the percentile conversion: on every input it equals the
linear map 50 + 34.13 z clamped to [0.1, 99.9], because the two saturation
branches agree with the clamp. -/
lemma z_score_to_percentile_eq_clamp (z : ℚ) :
    z_score_to_percentile z = max 0.1 (min 99.9 (50 + z * 34.13)) := by
  unfold z_score_to_percentile
  split_ifs with h1 h2
  · rw [min_eq_right (by linarith), max_eq_left (by linarith)]
  · rw [min_eq_left (by linarith), max_eq_right (by norm_num)]
  · rfl

/-- On a one-frame sequence with non-empty keypoints, the measurement pass
settles on that frame. -/
lemma find_bestPoses_singleton (p : Pose) (h : p.keypoints.isEmpty = false) :
    (bestPoses [p] 5).find? (fun q => !q.keypoints.isEmpty) = some p := by
  unfold bestPoses
  rw [List.mergeSort_singleton]
  rw [show List.take 5 [p] = [p] from rfl]
  exact List.find?_cons_of_pos _ (by simp [h])

/-! ## Claim theorems -/

/-- C1: for every z-score, both per-indicator classifiers of the source
(categorize_z_score in main.py, used verbatim for stunting, wasting and
underweight, and WHOStandards.classify_nutritional_status for every
measurement type) return normal for z ≥ −1, mild for −2 ≤ z < −1, moderate
for −3 ≤ z < −2, and severe for z < −3. -/
theorem C1_classification_thresholds (z : ℚ) :
    categorize_z_score z = spec_classification z ∧
    ∀ measurement_type : String,
      classify_nutritional_status z measurement_type = spec_classification z := by
  constructor
  · unfold categorize_z_score spec_classification
    split_ifs with h1 h2 h3 h4 h5 <;> first | rfl | (exfalso; simp_all)
  · intro t
    unfold classify_nutritional_status spec_classification
    split_ifs with h1 h2 h3 h4 h5 <;> first | rfl | (exfalso; simp_all)

/-- C2: for every triple of indicator statuses, the overall-risk logic of
assess_nutritional_status agrees with the spec rule: any severe status is
critical, otherwise more than one moderate is high, otherwise a moderate or
more than one mild is medium, otherwise low. -/
theorem C2_overall_risk (s w u : String) :
    assess_overall_risk s w u = spec_overall_risk s w u := by
  have hsev : (0 < List.count "severe" [s, w, u]) ↔
      (s = "severe" ∨ w = "severe" ∨ u = "severe") := by
    rw [List.count_pos_iff]
    simp [eq_comm]
  unfold assess_overall_risk spec_overall_risk
  by_cases h1 : s = "severe" ∨ w = "severe" ∨ u = "severe"
  · rw [if_pos (hsev.mpr h1), if_pos h1]
  · rw [if_neg (fun hc => h1 (hsev.mp hc)), if_neg h1]

/-- C7: growth-velocity computation on a non-positive day interval returns
the typed invalid-interval result with velocity 0 and no further fields,
without any division (the guard precedes every division of the source). -/
theorem C7_invalid_interval (current previous : ℚ) (days : ℤ)
    (measurement_type : String) (h : days ≤ 0) :
    get_growth_velocity current previous days measurement_type =
      { velocity := 0, status := "invalid_interval", velocity_per_day := none,
        total_change := none, unit := none, days_interval := none } := by
  unfold get_growth_velocity
  rw [if_pos h]

/-- Witness for C7 at the concrete interval of zero days. -/
theorem C7_invalid_interval_witness :
    get_growth_velocity 80 79 0 "height" =
      { velocity := 0, status := "invalid_interval", velocity_per_day := none,
        total_change := none, unit := none, days_interval := none } :=
  C7_invalid_interval 80 79 0 "height" (by decide)

/-- C8: scale calibration never divides by zero and falls back to its
documented default: the pose estimator returns 0.4 whenever the nose or the
left ear is missing or the proxy width is zero (given no usable reference
size), and calibrate_scale leaves the ratio state unchanged on a
non-positive pixel distance, in particular returning the documented default
0.1 from the initial state. -/
theorem C8_scale_default :
    (∀ (lms : List Landmark) (ref : Option ℚ), ref.getD 0 = 0 →
      lms.find? (fun lm => lm.name == "nose") = none →
      calculate_scale_factor lms ref = 0.4) ∧
    (∀ (lms : List Landmark) (ref : Option ℚ), ref.getD 0 = 0 →
      lms.find? (fun lm => lm.name == "left_ear") = none →
      calculate_scale_factor lms ref = 0.4) ∧
    (∀ (lms : List Landmark) (ref : Option ℚ) (nose ear : Landmark),
      ref.getD 0 = 0 →
      lms.find? (fun lm => lm.name == "nose") = some nose →
      lms.find? (fun lm => lm.name == "left_ear") = some ear →
      ear.x = nose.x →
      calculate_scale_factor lms ref = 0.4) ∧
    (∀ pixel_to_cm known px : ℚ, px ≤ 0 →
      calibrate_scale pixel_to_cm known px = pixel_to_cm) ∧
    (∀ known : ℚ, calibrate_scale 0.1 known 0 = 0.1) := by
  refine ⟨?_, ?_, ?_, ?_, ?_⟩
  · intro lms ref href hfind
    unfold calculate_scale_factor
    rw [if_neg (by simp [href]), hfind]
  · intro lms ref href hfind
    unfold calculate_scale_factor
    rw [if_neg (by simp [href]), hfind]
    cases lms.find? (fun lm => lm.name == "nose") <;> rfl
  · intro lms ref nose ear href hn he hx
    unfold calculate_scale_factor
    rw [if_neg (by simp [href]), hn, he]
    simp only [hx, sub_self, abs_zero, zero_mul]
    norm_num
  · intro r k px h
    unfold calibrate_scale
    rw [if_neg (by linarith)]
  · intro k
    unfold calibrate_scale
    norm_num

/-- Witness for C8 at concrete inputs: an empty landmark list with no
reference size, and a zero pixel distance from the default ratio state. -/
theorem C8_scale_default_witness :
    calculate_scale_factor [] none = 0.4 ∧ calibrate_scale 0.1 15 0 = 0.1 :=
  ⟨C8_scale_default.1 [] none rfl rfl, C8_scale_default.2.2.2.2 15⟩

/-- C10: the percentile conversion always lands in [0.1, 99.9], never
returns 0 or 100, and saturates exactly at 0.1 for z ≤ −3 and at 99.9 for
z ≥ 3. -/
theorem C10_percentile_range (z : ℚ) :
    (0.1 ≤ z_score_to_percentile z ∧ z_score_to_percentile z ≤ 99.9) ∧
    z_score_to_percentile z ≠ 0 ∧ z_score_to_percentile z ≠ 100 ∧
    (z ≤ -3 → z_score_to_percentile z = 0.1) ∧
    (3 ≤ z → z_score_to_percentile z = 99.9) := by
  have hb : 0.1 ≤ z_score_to_percentile z ∧ z_score_to_percentile z ≤ 99.9 := by
    rw [z_score_to_percentile_eq_clamp]
    constructor
    · exact le_max_left _ _
    · exact max_le (by norm_num) (min_le_left _ _)
  refine ⟨hb, ?_, ?_, ?_, ?_⟩
  · intro h
    rw [h] at hb
    exact absurd hb.1 (by norm_num)
  · intro h
    rw [h] at hb
    exact absurd hb.2 (by norm_num)
  · intro h
    unfold z_score_to_percentile
    rw [if_pos h]
  · intro h
    unfold z_score_to_percentile
    rw [if_neg (by linarith), if_pos (by linarith)]

/-- Witness for C10 at the saturation points z = −3 and z = 3. -/
theorem C10_percentile_range_witness :
    z_score_to_percentile (-3) = 0.1 ∧ z_score_to_percentile 3 = 99.9 :=
  ⟨(C10_percentile_range (-3)).2.2.2.1 (by norm_num),
   (C10_percentile_range 3).2.2.2.2 (by norm_num)⟩

/-- C4 (amended): the percentile conversion is monotonically non-decreasing,
maps 0 to the 50th percentile, and is symmetric: the percentiles of z and
of −z always sum to 100. -/
theorem C4_percentile_monotone_symmetric :
    (∀ z1 z2 : ℚ, z1 ≤ z2 → z_score_to_percentile z1 ≤ z_score_to_percentile z2) ∧
    z_score_to_percentile 0 = 50 ∧
    (∀ z : ℚ, z_score_to_percentile z + z_score_to_percentile (-z) = 100) := by
  refine ⟨?_, ?_, ?_⟩
  · intro z1 z2 h
    rw [z_score_to_percentile_eq_clamp, z_score_to_percentile_eq_clamp]
    exact max_le_max (le_refl _) (min_le_min (le_refl _) (by linarith))
  · unfold z_score_to_percentile
    rw [if_neg (by norm_num), if_neg (by norm_num)]
    rw [min_eq_right (by norm_num), max_eq_right (by norm_num)]
    norm_num
  · intro z
    rw [z_score_to_percentile_eq_clamp, z_score_to_percentile_eq_clamp]
    have hneg : (-z) * (34.13 : ℚ) = -(z * 34.13) := by ring
    rw [hneg]
    rcases le_total (z * 34.13) (-49.9) with h1 | h1
    · rw [min_eq_right (by linarith), max_eq_left (by linarith),
        min_eq_left (by linarith), max_eq_right (by norm_num)]
      norm_num
    · rcases le_total (49.9 : ℚ) (z * 34.13) with h2 | h2
      · rw [min_eq_left (by linarith), max_eq_right (by norm_num),
          min_eq_right (by linarith), max_eq_left (by linarith)]
        norm_num
      · rw [min_eq_right (by linarith), max_eq_right (by linarith),
          min_eq_right (by linarith), max_eq_right (by linarith)]
        ring

/-- Witness for C4 at the concrete pair z1 = −1 ≤ z2 = 1 and at z = 2 for
the symmetry sum. -/
theorem C4_percentile_monotone_symmetric_witness :
    z_score_to_percentile (-1) ≤ z_score_to_percentile 1 ∧
    z_score_to_percentile 2 + z_score_to_percentile (-2) = 100 :=
  ⟨C4_percentile_monotone_symmetric.1 (-1) 1 (by norm_num),
   C4_percentile_monotone_symmetric.2.2 2⟩

/-- Counterexample for C4 as stated: the conversion collapses z = 2 and
z = 3 to the same value 99.9, so it is not injective, whereas a percentile
obtained from the standard normal cumulative distribution is strictly
increasing (and takes the value 97.72... at z = 2); the conversion is a
clamped linear approximation, not the normal CDF. -/
theorem C4_counterexample :
    (2 : ℚ) < 3 ∧ z_score_to_percentile 2 = 99.9 ∧
    z_score_to_percentile 3 = 99.9 ∧
    z_score_to_percentile 2 = z_score_to_percentile 3 := by
  refine ⟨by norm_num, ?_, ?_, ?_⟩ <;>
    norm_num [z_score_to_percentile]

/-- Positivity of every per-view trust weight, including the default weight
0.1 of an unknown view name. -/
lemma scanWeight_pos (scan_type : String) : 0 < scanWeight scan_type := by
  unfold scanWeight
  split_ifs <;> norm_num

/-- Weighted averaging over a single entry returns that entry's value. -/
lemma weighted_average_single (v w : ℚ) (hw : w ≠ 0) :
    weighted_average [(v, w)] = v := by
  unfold weighted_average
  simp [mul_div_assoc, div_self hw]

/-- Fusion of a single view passes the value through and boosts the
confidence by the capped factor 1.1. -/
lemma fuse_measurement_single (name : String) (r : ScanResult)
    (get : ScanResult → Meas) :
    fuse_measurement [(name, r)] get =
      { value := (get r).value,
        confidence := min ((get r).confidence * 1.1) 1 } := by
  unfold fuse_measurement
  rw [List.map_cons, List.map_nil, List.map_cons, List.map_nil,
    weighted_average_single _ _ (ne_of_gt (scanWeight_pos name)),
    weighted_average_single _ _ (ne_of_gt (scanWeight_pos name))]

/-- C3 (amended): multi-view fusion applied to a single view passes every
measurement value through unchanged, but still applies the 1.1 confidence
boost capped at 1.0 to every confidence: the fused confidence is
min(1.1 * c, 1), not c. -/
theorem C3_single_view_fusion (name : String) (r : ScanResult) :
    combine_multi_scan_results [(name, r)] =
      { height :=
          { value := r.height.value,
            confidence := min (r.height.confidence * 1.1) 1 },
        weight :=
          { value := r.weight.value,
            confidence := min (r.weight.confidence * 1.1) 1 },
        arm_circumference :=
          { value := r.arm_circumference.value,
            confidence := min (r.arm_circumference.confidence * 1.1) 1 },
        head_circumference :=
          { value := r.head_circumference.value,
            confidence := min (r.head_circumference.confidence * 1.1) 1 } } := by
  unfold combine_multi_scan_results
  rw [fuse_measurement_single, fuse_measurement_single,
    fuse_measurement_single, fuse_measurement_single]

/-- Concrete single-view scan result with all confidences 0.5, used only to
refute C3 as stated. -/
def halfConfidenceScan : ScanResult :=
  { height := { value := 78.5, confidence := 0.5 },
    weight := { value := 11.2, confidence := 0.5 },
    arm_circumference := { value := 13.0, confidence := 0.5 },
    head_circumference := { value := 47.0, confidence := 0.5 } }

/-- Counterexample for C3 as stated: fusing the single front view of
halfConfidenceScan keeps the height value but changes the height confidence
from 0.5 to 0.55, so the result is not the input MeasurementSet and the
1.1 bonus is applied. -/
theorem C3_counterexample :
    (combine_multi_scan_results [("front", halfConfidenceScan)]).height.value
        = halfConfidenceScan.height.value ∧
    (combine_multi_scan_results [("front", halfConfidenceScan)]).height.confidence
        = 0.55 ∧
    halfConfidenceScan.height.confidence = 0.5 ∧
    combine_multi_scan_results [("front", halfConfidenceScan)] ≠ halfConfidenceScan := by
  have hv : (combine_multi_scan_results [("front", halfConfidenceScan)]).height.value
      = halfConfidenceScan.height.value := by
    show (fuse_measurement [("front", halfConfidenceScan)] (fun r => r.height)).value
      = halfConfidenceScan.height.value
    rw [fuse_measurement_single]
  have hc : (combine_multi_scan_results [("front", halfConfidenceScan)]).height.confidence
      = 0.55 := by
    show (fuse_measurement [("front", halfConfidenceScan)] (fun r => r.height)).confidence
      = 0.55
    rw [fuse_measurement_single]
    show min ((0.5 : ℚ) * 1.1) 1 = 0.55
    rw [min_eq_left (by norm_num)]
    norm_num
  refine ⟨hv, hc, rfl, fun heq => ?_⟩
  rw [heq] at hc
  have : (0.5 : ℚ) = 0.55 := hc
  norm_num at this

/-- The consistency bonus already saturates at one good pose:
min(good / 5, 0.2) equals 0.2 as soon as at least one quality score exceeds
0.7, and 0 otherwise. -/
lemma quality_bonus_eq (qs : List ℚ) :
    quality_bonus qs =
      if 0 < (qs.filter (fun q => decide (q > 0.7))).length then (0.2 : ℚ) else 0 := by
  unfold quality_bonus
  rcases Nat.eq_zero_or_pos (qs.filter (fun q => decide (q > 0.7))).length with h | h
  · rw [h, if_neg (by omega)]
    norm_num
  · rw [if_pos h, min_eq_right]
    have h1 : (1 : ℚ) ≤ ((qs.filter (fun q => decide (q > 0.7))).length : ℚ) := by
      exact_mod_cast h
    linarith

/-- C9 (amended): on every non-empty frame sequence the aggregate quality
equals the average frame quality, plus a bonus of 0.2 exactly when at least
one frame has quality above 0.7 (the source bonus min(good/5, 0.2) already
reaches its cap at a single high-quality frame), minus a penalty of 0.1 per
missing frame when fewer than 3 frames are usable, clamped to [0, 1]; the
score depends on the frame quality scores alone. -/
theorem C9_quality_formula (qs : List ℚ) (h : qs ≠ []) :
    assess_measurement_quality qs = spec_quality_score qs := by
  have hne : qs.isEmpty = false := List.isEmpty_eq_false.mpr h
  unfold assess_measurement_quality spec_quality_score
  rw [hne, quality_bonus_eq]

/-- Witness for C9 on the concrete quality scores [0.9, 0.2]. -/
theorem C9_quality_formula_witness :
    assess_measurement_quality [0.9, 0.2] = spec_quality_score [0.9, 0.2] :=
  C9_quality_formula [0.9, 0.2] (by simp)

/-- Counterexample for C9 as stated: on a single frame of quality 0.75 the
source returns 0.75 (the 0.2 bonus fires for one high-quality frame and
cancels the 0.2 penalty), while the claimed formula grants no bonus below
five high-quality frames and yields 0.55, whatever bonus magnitude is
read into the claim. -/
theorem C9_counterexample :
    assess_measurement_quality [0.75] = 0.75 ∧
    claimC9_score 0.2 [0.75] = 0.55 ∧ (0.75 : ℚ) ≠ 0.55 := by
  refine ⟨?_, ?_, by norm_num⟩
  · unfold assess_measurement_quality quality_bonus quality_penalty
    norm_num [List.filter, min_def, max_def]
  · unfold claimC9_score quality_penalty
    norm_num [List.filter, min_def, max_def]

/-- C6: with an empty pose list, or with no frame marked pose-present,
measurement calculation returns the empty measurement dictionary, whose
quality entry reads as 0; the embedded function is total, so no exception
path exists. -/
theorem C6_empty_frames (fl : NumPrims) (px : ℚ) (poses : List Pose)
    (scan_type : String) (age_months : ℤ)
    (h : poses = [] ∨ ∀ p ∈ poses, p.pose_present = false) :
    calculate_measurements fl px poses scan_type age_months = [] ∧
    ((calculate_measurements fl px poses scan_type age_months).lookup
        "measurement_quality").getD 0 = 0 := by
  have hmain : calculate_measurements fl px poses scan_type age_months = [] := by
    unfold calculate_measurements
    rcases h with rfl | h
    · rfl
    · have hfilter : poses.filter (fun p => p.pose_present) = [] :=
        List.filter_eq_nil_iff.mpr (fun a ha => by simp [h a ha])
      by_cases hemp : poses.isEmpty
      · rw [if_pos hemp]
      · rw [if_neg hemp, hfilter]
        rfl
  exact ⟨hmain, by rw [hmain]; rfl⟩

/-- A frame never detected as containing a pose. -/
def absentPose : Pose :=
  { pose_present := false, quality_score := 0.9, keypoints := [] }

/-- Arbitrary concrete instantiation of the numeric primitives; the guard
logic under test never depends on them. -/
def prims0 : NumPrims := { norm2 := fun dx dy => |dx| + |dy|, pi := 3.14 }

/-- Witness for C6 on a concrete one-frame sequence with no detected
pose. -/
theorem C6_empty_frames_witness :
    calculate_measurements prims0 1 [absentPose] "front" 24 = [] :=
  (C6_empty_frames prims0 1 [absentPose] "front" 24
    (Or.inr (by intro p hp; rw [List.mem_singleton] at hp; rw [hp]; rfl))).1


/-- C5 (amended): measurements are gated per the frame the measurement
pass settles on (the first of the five best-quality frames with non-empty
keypoints).  The lateral measurements are confidence-gated as the claim
states: the head-circumference proxy is omitted whenever that frame's nose
or best-ear confidence is at most 0.5, and body depth is omitted whenever
its more-visible shoulder confidence is at most 0.5.  The frontal
measurements (shoulder width, hip width, head-to-ground distance) are
instead gated on positivity of the pixel coordinates the source tests:
each is omitted when its coordinate guard fails, and each is computed and
reported whenever its coordinate guard holds, regardless of how low the
landmark confidences are. -/
theorem C5_confidence_gating :
    (∀ (fl : NumPrims) (px : ℚ) (poses : List Pose) (p : Pose),
      (bestPoses poses 5).find? (fun q => !q.keypoints.isEmpty) = some p →
      ((kp p 0).v ≤ 0.5 ∨ (visibleEar p).v ≤ 0.5 →
        (calculate_lateral_measurements fl px poses).lookup
          "head_circumference_ratio" = none) ∧
      ((visibleShoulder p).v ≤ 0.5 →
        (calculate_lateral_measurements fl px poses).lookup "body_depth" = none)) ∧
    (∀ (fl : NumPrims) (px : ℚ) (poses : List Pose) (p : Pose),
      (bestPoses poses 5).find? (fun q => !q.keypoints.isEmpty) = some p →
      ((kp p 11).x ≤ 0 ∨ (kp p 12).x ≤ 0 →
        (calculate_frontal_measurements fl px poses).lookup "shoulder_width" = none) ∧
      ((kp p 23).x ≤ 0 ∨ (kp p 24).x ≤ 0 →
        (calculate_frontal_measurements fl px poses).lookup "hip_width" = none) ∧
      ((kp p 0).y ≤ 0 ∨ ((kp p 27).y ≤ 0 ∧ (kp p 28).y ≤ 0) →
        (calculate_frontal_measurements fl px poses).lookup
          "head_to_ground_distance" = none)) ∧
    (∀ (fl : NumPrims) (px : ℚ) (poses : List Pose) (p : Pose),
      (bestPoses poses 5).find? (fun q => !q.keypoints.isEmpty) = some p →
      28 < p.keypoints.length →
      ((kp p 11).x > 0 → (kp p 12).x > 0 →
        (calculate_frontal_measurements fl px poses).lookup "shoulder_width" =
          some (fl.norm2 ((kp p 11).x - (kp p 12).x) ((kp p 11).y - (kp p 12).y) * px)) ∧
      ((kp p 23).x > 0 → (kp p 24).x > 0 →
        (calculate_frontal_measurements fl px poses).lookup "hip_width" =
          some (fl.norm2 ((kp p 23).x - (kp p 24).x) ((kp p 23).y - (kp p 24).y) * px)) ∧
      ((kp p 0).y > 0 → ((kp p 27).y > 0 ∨ (kp p 28).y > 0) →
        (calculate_frontal_measurements fl px poses).lookup "head_to_ground_distance" =
          some (|(if (kp p 27).y > 0 ∧ (kp p 28).y > 0 then ((kp p 27).y + (kp p 28).y) / 2
                  else if (kp p 27).y > 0 then (kp p 27).y else (kp p 28).y) - (kp p 0).y|
                * px))) := by
  refine ⟨?_, ?_, ?_⟩
  · intro fl px poses p hfind
    have hmap : calculate_lateral_measurements fl px poses = lateralFromPose fl px p := by
      unfold calculate_lateral_measurements
      rw [hfind]
    constructor
    · intro hq
      have hneg : ¬((kp p 0).v > 0.5 ∧ (visibleEar p).v > 0.5) := by
        intro hcon
        rcases hq with h1 | h1
        · exact absurd hcon.1 (not_lt.mpr h1)
        · exact absurd hcon.2 (not_lt.mpr h1)
      rw [hmap]
      unfold lateralFromPose
      rw [if_neg hneg]
      split_ifs <;> simp [List.lookup]
    · intro hq
      have hneg : ¬((visibleShoulder p).v > 0.5) := not_lt.mpr hq
      rw [hmap]
      unfold lateralFromPose
      rw [if_neg hneg]
      split_ifs <;> simp [List.lookup]
  · intro fl px poses p hfind
    have hmap : calculate_frontal_measurements fl px poses = frontalFromPose fl px p := by
      unfold calculate_frontal_measurements
      rw [hfind]
    refine ⟨?_, ?_, ?_⟩
    · intro hq
      have hneg : ¬((kp p 11).x > 0 ∧ (kp p 12).x > 0) := by
        intro hcon
        rcases hq with h1 | h1
        · exact absurd hcon.1 (not_lt.mpr h1)
        · exact absurd hcon.2 (not_lt.mpr h1)
      rw [hmap]
      unfold frontalFromPose
      rw [if_neg hneg]
      split_ifs <;> simp [List.lookup]
    · intro hq
      have hneg : ¬((kp p 23).x > 0 ∧ (kp p 24).x > 0) := by
        intro hcon
        rcases hq with h1 | h1
        · exact absurd hcon.1 (not_lt.mpr h1)
        · exact absurd hcon.2 (not_lt.mpr h1)
      rw [hmap]
      unfold frontalFromPose
      rw [if_neg hneg]
      split_ifs <;> simp [List.lookup]
    · intro hq
      have hneg : ¬((kp p 0).y > 0 ∧ ((kp p 27).y > 0 ∨ (kp p 28).y > 0)) := by
        intro hcon
        rcases hq with h1 | h2
        · exact absurd hcon.1 (not_lt.mpr h1)
        · rcases hcon.2 with h3 | h3
          · exact absurd h3 (not_lt.mpr h2.1)
          · exact absurd h3 (not_lt.mpr h2.2)
      rw [hmap]
      unfold frontalFromPose
      rw [if_neg hneg]
      split_ifs <;> simp [List.lookup]
  · intro fl px poses p hfind hlen
    have hmap : calculate_frontal_measurements fl px poses = frontalFromPose fl px p := by
      unfold calculate_frontal_measurements
      rw [hfind]
    refine ⟨?_, ?_, ?_⟩
    · intro h11 h12
      rw [hmap]
      unfold frontalFromPose
      rw [if_pos hlen, if_pos (And.intro h11 h12)]
      split_ifs <;> simp [List.lookup]
    · intro h23 h24
      rw [hmap]
      unfold frontalFromPose
      rw [if_pos hlen, if_pos (And.intro h23 h24)]
      split_ifs <;> simp [List.lookup]
    · intro h0 hor
      rw [hmap]
      unfold frontalFromPose
      rw [if_pos hlen, if_pos (And.intro h0 hor)]
      split_ifs <;> simp [List.lookup]

/-- A 29-keypoint frontal pose whose landmarks all carry confidence 0.1,
far below the 0.5 threshold, yet with positive pixel coordinates. -/
def lowConfPose : Pose :=
  { pose_present := true, quality_score := 0.9,
    keypoints := (List.replicate 29 { x := 10, y := 20, z := 0, v := 0.1 }).set 12
      { x := 30, y := 20, z := 0, v := 0.1 } }

/-- Counterexample for C5 as stated: both shoulder landmarks of lowConfPose
have confidence 0.1 < 0.5, yet the frontal measurement pass still computes
and reports the shoulder-width measurement. -/
theorem C5_counterexample :
    (kp lowConfPose 11).v < 0.5 ∧ (kp lowConfPose 12).v < 0.5 ∧
    ((calculate_frontal_measurements prims0 1 [lowConfPose]).lookup
        "shoulder_width").isSome = true := by
  refine ⟨by norm_num [kp, lowConfPose], by norm_num [kp, lowConfPose], ?_⟩
  unfold calculate_frontal_measurements bestPoses
  rw [List.mergeSort_singleton]
  rw [show List.take 5 [lowConfPose] = [lowConfPose] from rfl]
  rw [List.find?_cons_of_pos _ (by decide)]
  show ((frontalFromPose prims0 1 lowConfPose).lookup "shoulder_width").isSome = true
  unfold frontalFromPose
  rw [if_pos (by decide), if_pos (by constructor <;> norm_num [kp, lowConfPose])]
  simp [List.lookup]

/-- Witness for C5 at a concrete frontal pose: the theorem's
shoulder-width presence conjunct applied to lowConfPose. -/
theorem C5_confidence_gating_witness :
    (calculate_frontal_measurements prims0 1 [lowConfPose]).lookup "shoulder_width" =
      some (prims0.norm2 ((kp lowConfPose 11).x - (kp lowConfPose 12).x)
        ((kp lowConfPose 11).y - (kp lowConfPose 12).y) * 1) :=
  (C5_confidence_gating.2.2 prims0 1 [lowConfPose] lowConfPose
      (find_bestPoses_singleton lowConfPose (by decide)) (by decide)).1
    (by norm_num [kp, lowConfPose]) (by norm_num [kp, lowConfPose])
